import Mathlib

/-!
Verification development for the transaction-reconciliation platform.

The definitions below are shallow embeddings of the Python source:

* `execGo` / `executeReconciliation` embed `execute_reconciliation`
  (`backend/api/v1/endpoints/jobs.py`), the job orchestrator: its connector
  check, its per-error-class retry policy with exponential backoff, its job
  writes and its notification fan-out.  Side effects are recorded as an
  explicit event trace.  The Python function recurses with `attempt + 1`
  only while `attempt < job.max_retries`; the Lean embedding makes that
  termination explicit with a fuel argument which the top-level wrapper
  instantiates with enough fuel for the whole attempt chain.
* `applyDelivery`, `notifyTargets`, `updateWebhookStatus`, `sendHeaders`
  and the SHA-256 / HMAC development embed the webhook dispatcher
  (`backend/core/webhooks.py`) and the reactivation endpoint.
* `getDateRange` embeds `BaseIngestor._get_date_range`
  (`backend/core/ingestors/base.py`); `jobConfigAccepts` embeds the
  request-layer validation of `schemas/job.py`.
* `ga4ValidateRows` embeds the tail of `GA4Ingestor.fetch_data`
  (`backend/core/ingestors/google_analytics.py`) together with
  `BaseIngestor._validate_dataframe` and the pandas rule that a DataFrame
  built from an empty list of row dicts has no columns.
-/

namespace Recon

/-- Job lifecycle states.  Modelled from the spec: the enum lives in
`models/job.py`, which is not among the provided sources; the spec (§3)
enumerates `PENDING, RUNNING, RETRYING, COMPLETED, FAILED` and the test
suite pins the string values. -/
inductive JobStatus where
  | pending
  | running
  | retrying
  | completed
  | failed
deriving DecidableEq

/-- Which log message `execute_reconciliation` last wrote into `job.logs`,
one constructor per format string in the source. -/
inductive LogEntry where
  | missingConnectors
  | nonRetryable (errName : String) (msg : String)
  | attemptRetryableApi (attempt : Nat) (msg : String)
  | attemptUnexpected (attempt : Nat) (msg : String)
  | failedAfter (attempts : Nat) (msg : String)
deriving DecidableEq

/-- Summary of a completed run, the fields of the `summary` dict the
orchestrator persists (lines 197-211 of `jobs.py`); the reconciliation is a
set diff over the `clean_id` columns. -/
structure Summary where
  missingIds : List String
  missingCount : Nat
  ga4Records : Nat
  backendRecords : Nat
  retryAttempt : Nat
deriving DecidableEq

/-- The mutable job-row fields the orchestrator reads and writes. -/
structure JobRec where
  status : JobStatus
  retryCount : Nat
  maxRetries : Nat
  log : Option LogEntry
  summary : Option Summary
deriving DecidableEq

/-- The error taxonomy raised by the ingestors (`core/ingestors/base.py`):
`ConfigurationError`, `DataValidationError`, `APIError{source, status_code}`
plus the defensive catch-all for unclassified exceptions. -/
inductive FetchErr where
  | configuration (msg : String)
  | dataValidation (msg : String)
  | api (source : String) (statusCode : Option Nat) (msg : String)
  | unexpected (msg : String)
deriving DecidableEq

/-- Outcome of one attempt's pair of adapter fetches: both normalized
tables (rows of `clean_id`), or the raised error. -/
inductive FetchOutcome where
  | ok (ga4 : List String) (backend : List String)
  | err (e : FetchErr)

/-- The orchestrator's environment: whether the client's connector list
yields a GA4 and a backend ingestor, and what the adapter fetches do at
each attempt number. -/
structure Env where
  hasGA4 : Bool
  hasBackend : Bool
  fetch : Nat → FetchOutcome

/-- Observable side effects of one orchestrator run, in order:
`startedNotice` is the unconditional `notify_job_started` call at the top
of `execute_reconciliation`; `commit j` is a `db.commit()` persisting the
job row `j`; `sleep s` is the `asyncio.sleep` backoff; `completedNotice` /
`failedNotice` are the webhook notifications and `emailNotice b` is the
`_send_job_notification` call with `success=b`. -/
inductive Ev where
  | startedNotice
  | commit (job : JobRec)
  | sleep (seconds : Nat)
  | completedNotice
  | failedNotice
  | emailNotice (success : Bool)
deriving DecidableEq

/-- Line 275 of `jobs.py`: an APIError is retryable iff
`e.status_code is None or e.status_code >= 500 or e.status_code == 429`. -/
def retryableApi (statusCode : Option Nat) : Bool :=
  match statusCode with
  | none => true
  | some c => decide (500 ≤ c) || decide (c = 429)

/-- The summary computed on the success path (lines 188-211): ids present
in the backend table but absent from the analytics table. -/
def mkSummary (ga4 backend : List String) (attempt : Nat) : Summary :=
  let missing := (backend.filter (fun i => ¬ ga4.contains i)).dedup
  { missingIds := missing
    missingCount := missing.length
    ga4Records := ga4.length
    backendRecords := backend.length
    retryAttempt := attempt }

/-- One full attempt chain of `execute_reconciliation`, from the given
attempt number, producing the event trace and the final job row.  `fuel`
bounds the recursion depth; the source recurses only while
`attempt < job.max_retries`, so `job.maxRetries + 1` fuel is always enough
from attempt 1 (see `executeReconciliation`). -/
def execGo : Nat → Env → JobRec → Nat → List Ev × JobRec
  | 0, _, job, _ => ([], job)
  | fuel + 1, env, job, attempt =>
    if env.hasGA4 && env.hasBackend then
      match env.fetch attempt with
      | FetchOutcome.ok ga4 backend =>
        let jobC := { job with
          status := JobStatus.completed
          summary := some (mkSummary ga4 backend attempt) }
        ([Ev.startedNotice, Ev.commit jobC, Ev.completedNotice,
          Ev.emailNotice true], jobC)
      | FetchOutcome.err (FetchErr.configuration m) =>
        let jobF := { job with
          status := JobStatus.failed
          log := some (LogEntry.nonRetryable "ConfigurationError" m) }
        ([Ev.startedNotice, Ev.commit jobF, Ev.failedNotice,
          Ev.emailNotice false], jobF)
      | FetchOutcome.err (FetchErr.dataValidation m) =>
        let jobF := { job with
          status := JobStatus.failed
          log := some (LogEntry.nonRetryable "DataValidationError" m) }
        ([Ev.startedNotice, Ev.commit jobF, Ev.failedNotice,
          Ev.emailNotice false], jobF)
      | FetchOutcome.err (FetchErr.api _ code m) =>
        let job1 := { job with retryCount := attempt }
        if retryableApi code && decide (attempt < job.maxRetries) then
          let jobR := { job1 with
            status := JobStatus.retrying
            log := some (LogEntry.attemptRetryableApi attempt m) }
          let rest := execGo fuel env jobR (attempt + 1)
          (Ev.startedNotice :: Ev.commit jobR :: Ev.sleep (2 ^ attempt)
            :: rest.1, rest.2)
        else
          let jobF := { job1 with
            status := JobStatus.failed
            log := some (LogEntry.failedAfter attempt m) }
          ([Ev.startedNotice, Ev.commit jobF, Ev.failedNotice,
            Ev.emailNotice false], jobF)
      | FetchOutcome.err (FetchErr.unexpected m) =>
        let job1 := { job with
          retryCount := attempt
          log := some (LogEntry.attemptUnexpected attempt m) }
        if decide (attempt < job.maxRetries) then
          let jobR := { job1 with status := JobStatus.retrying }
          let rest := execGo fuel env jobR (attempt + 1)
          (Ev.startedNotice :: Ev.commit jobR :: Ev.sleep (2 ^ attempt)
            :: rest.1, rest.2)
        else
          let jobF := { job1 with
            status := JobStatus.failed
            log := some (LogEntry.failedAfter attempt m) }
          ([Ev.startedNotice, Ev.commit jobF, Ev.failedNotice,
            Ev.emailNotice false], jobF)
    else
      let jobF := { job with
        status := JobStatus.failed
        log := some LogEntry.missingConnectors }
      ([Ev.startedNotice, Ev.commit jobF], jobF)

/-- `execute_reconciliation(job_id, client_id, ..., attempt)`: the attempt
chain with enough fuel for every reachable recursion depth. -/
def executeReconciliation (env : Env) (job : JobRec) (attempt : Nat) :
    List Ev × JobRec :=
  execGo (job.maxRetries + 1) env job attempt

/-- The backoff sleeps of a trace, in order. -/
def sleepsOf (t : List Ev) : List Nat :=
  t.filterMap fun e =>
    match e with
    | Ev.sleep s => some s
    | _ => none

/-- How many `job.started` notifications a trace carries. -/
def startedCount (t : List Ev) : Nat :=
  t.countP fun e =>
    match e with
    | Ev.startedNotice => true
    | _ => false

/-- The job rows committed along a trace, in order. -/
def commitsOf (t : List Ev) : List JobRec :=
  t.filterMap fun e =>
    match e with
    | Ev.commit j => some j
    | _ => none

/-- How many `job.failed` webhook notifications a trace carries. -/
def failedNoticeCount (t : List Ev) : Nat :=
  t.countP fun e =>
    match e with
    | Ev.failedNotice => true
    | _ => false

/-- A freshly created job row as `run_job` writes it: status RUNNING,
`retry_count = 0`, the caller's `max_retries`. -/
def freshJob (maxRetries : Nat) : JobRec :=
  { status := JobStatus.running
    retryCount := 0
    maxRetries := maxRetries
    log := none
    summary := none }

/-- Environment whose adapter fetch raises the same APIError at every
attempt. -/
def envApi (source : String) (code : Option Nat) : Env :=
  { hasGA4 := true
    hasBackend := true
    fetch := fun _ => FetchOutcome.err (FetchErr.api source code "boom") }

/-- `JobConfig.max_retries` is `Field(default=3, ge=0, le=5)`
(`schemas/job.py` lines 133-138). -/
def maxRetriesAdmissible (m : Nat) : Bool :=
  decide (m ≤ 5)

/-! ### Webhook dispatcher (`core/webhooks.py`, `models/webhook.py`) -/

/-- Webhook statuses from `models/webhook.py`: ACTIVE, INACTIVE, FAILED. -/
inductive WebhookStatus where
  | active
  | inactive
  | failed
deriving DecidableEq

/-- The webhook-row fields the dispatcher reads and mutates.  The `secret`
and the payload are byte strings (the result of Python `str.encode()`). -/
structure WebhookRec where
  secret : Option (List Nat)
  events : List String
  status : WebhookStatus
  failureCount : Nat
deriving DecidableEq

/-- What one `_send_webhook` POST attempt came back with: an HTTP
response with some status code, an `httpx.TimeoutException`, or any other
network/client exception. -/
inductive DeliveryOutcome where
  | http (statusCode : Nat)
  | timeout
  | netErr (msg : String)
deriving DecidableEq

/-- The webhook-row mutation performed by `_send_webhook` for one delivery
attempt.  A response path (lines 143-158) resets `failure_count` on 2xx
and increments it otherwise, with no circuit-breaker check; the exception
paths delegate to `_log_delivery_failure` (lines 179-197), which
increments `failure_count` and forces status FAILED once it reaches 10. -/
def applyDelivery (w : WebhookRec) (o : DeliveryOutcome) : WebhookRec :=
  match o with
  | DeliveryOutcome.http code =>
    if 200 ≤ code ∧ code < 300 then
      { w with failureCount := 0 }
    else
      { w with failureCount := w.failureCount + 1 }
  | DeliveryOutcome.timeout =>
    let w1 := { w with failureCount := w.failureCount + 1 }
    if 10 ≤ w1.failureCount then { w1 with status := WebhookStatus.failed }
    else w1
  | DeliveryOutcome.netErr _ =>
    let w1 := { w with failureCount := w.failureCount + 1 }
    if 10 ≤ w1.failureCount then { w1 with status := WebhookStatus.failed }
    else w1

/-- Line 227 of `webhooks.py`: a webhook matches an event iff its `events`
list is empty (= all events) or contains the event name. -/
def subscribesTo (w : WebhookRec) (ev : String) : Bool :=
  w.events.isEmpty || w.events.contains ev

/-- `WebhookService.notify`: the webhooks that receive a delivery attempt
for an event — the ACTIVE ones (DB filter, lines 213-218) whose `events`
subscribe to the event (lines 224-228). -/
def notifyTargets (ws : List WebhookRec) (ev : String) : List WebhookRec :=
  (ws.filter fun w => w.status == WebhookStatus.active).filter
    fun w => subscribesTo w ev

/-- The status-update branch of the webhook update endpoint
(`api/v1/endpoints/webhooks.py` lines 123-127): setting the status, and
resetting `failure_count` to 0 when the new status is ACTIVE. -/
def updateWebhookStatus (w : WebhookRec) (newStatus : WebhookStatus) :
    WebhookRec :=
  let w1 := { w with status := newStatus }
  if newStatus == WebhookStatus.active then { w1 with failureCount := 0 }
  else w1

/-! ### SHA-256 and HMAC, embedding the semantics of Python's
`hmac.new(secret, payload, hashlib.sha256).hexdigest()` used by
`WebhookService._generate_signature`.  Bytes are `Nat`s below 256 and
32-bit words are `Nat`s reduced modulo `2 ^ 32`. -/

/-- Reduce to a 32-bit word. -/
def w32 (x : Nat) : Nat := x % 4294967296

/-- Right-rotation of a 32-bit word. -/
def rotr (n x : Nat) : Nat := w32 ((x >>> n) ||| (x <<< (32 - n)))

/-- SHA-256 `Ch(x,y,z)`. -/
def sha256Ch (x y z : Nat) : Nat := (x &&& y) ^^^ ((x ^^^ 4294967295) &&& z)

/-- SHA-256 `Maj(x,y,z)`. -/
def sha256Maj (x y z : Nat) : Nat := (x &&& y) ^^^ (x &&& z) ^^^ (y &&& z)

/-- SHA-256 big sigma 0. -/
def bSig0 (x : Nat) : Nat := rotr 2 x ^^^ rotr 13 x ^^^ rotr 22 x

/-- SHA-256 big sigma 1. -/
def bSig1 (x : Nat) : Nat := rotr 6 x ^^^ rotr 11 x ^^^ rotr 25 x

/-- SHA-256 small sigma 0. -/
def sSig0 (x : Nat) : Nat := rotr 7 x ^^^ rotr 18 x ^^^ (x >>> 3)

/-- SHA-256 small sigma 1. -/
def sSig1 (x : Nat) : Nat := rotr 17 x ^^^ rotr 19 x ^^^ (x >>> 10)

/-- The 64 SHA-256 round constants. -/
def sha256K : Array Nat :=
  #[1116352408, 1899447441, 3049323471, 3921009573,
    961987163, 1508970993, 2453635748, 2870763221,
    3624381080, 310598401, 607225278, 1426881987,
    1925078388, 2162078206, 2614888103, 3248222580,
    3835390401, 4022224774, 264347078, 604807628,
    770255983, 1249150122, 1555081692, 1996064986,
    2554220882, 2821834349, 2952996808, 3210313671,
    3336571891, 3584528711, 113926993, 338241895,
    666307205, 773529912, 1294757372, 1396182291,
    1695183700, 1986661051, 2177026350, 2456956037,
    2730485921, 2820302411, 3259730800, 3345764771,
    3516065817, 3600352804, 4094571909, 275423344,
    430227734, 506948616, 659060556, 883997877,
    958139571, 1322822218, 1537002063, 1747873779,
    1955562222, 2024104815, 2227730452, 2361852424,
    2428436474, 2756734187, 3204031479, 3329325298]

/-- The eight 32-bit words of SHA-256 working state. -/
structure Hash8 where
  a : Nat
  b : Nat
  c : Nat
  d : Nat
  e : Nat
  f : Nat
  g : Nat
  h : Nat
deriving DecidableEq

/-- SHA-256 initial hash value. -/
def sha256Init : Hash8 :=
  { a := 1779033703, b := 3144134277, c := 1013904242, d := 2773480762,
    e := 1359893119, f := 2600822924, g := 528734635, h := 1541459225 }

/-- One SHA-256 compression round with the combined constant+schedule
word `kw`. -/
def sha256Round (s : Hash8) (kw : Nat) : Hash8 :=
  let t1 := w32 (s.h + bSig1 s.e + sha256Ch s.e s.f s.g + kw)
  let t2 := w32 (bSig0 s.a + sha256Maj s.a s.b s.c)
  { a := w32 (t1 + t2), b := s.a, c := s.b, d := s.c,
    e := w32 (s.d + t1), f := s.e, g := s.f, h := s.g }

/-- The 64-entry message schedule of one 16-word block. -/
def sha256Schedule (block : List Nat) : Array Nat :=
  (List.range 48).foldl
    (fun w i =>
      let t := i + 16
      w.push (w32 (sSig1 w[t - 2]! + w[t - 7]! + sSig0 w[t - 15]!
        + w[t - 16]!)))
    block.toArray

/-- Compress one 16-word block into the running hash state. -/
def sha256CompressBlock (hs : Hash8) (block : List Nat) : Hash8 :=
  let w := sha256Schedule block
  let s := (List.range 64).foldl
    (fun s i => sha256Round s (w32 (sha256K[i]! + w[i]!))) hs
  { a := w32 (hs.a + s.a), b := w32 (hs.b + s.b), c := w32 (hs.c + s.c),
    d := w32 (hs.d + s.d), e := w32 (hs.e + s.e), f := w32 (hs.f + s.f),
    g := w32 (hs.g + s.g), h := w32 (hs.h + s.h) }

/-- SHA-256 padding: `0x80`, zeros to 56 mod 64, then the bit length as
eight big-endian bytes. -/
def sha256Pad (msg : List Nat) : List Nat :=
  let len := msg.length
  let zeros := (119 - len % 64) % 64
  let bitLen := len * 8
  msg ++ (128 :: List.replicate zeros 0)
    ++ ((List.range 8).map fun i => bitLen >>> (8 * (7 - i)) % 256)

/-- SHA-256 of a byte string, as the 32 digest bytes. -/
def sha256 (msg : List Nat) : List Nat :=
  let padded := (sha256Pad msg).toArray
  let nwords := padded.size / 4
  let words := ((List.range nwords).map fun j =>
    (padded[4 * j]! <<< 24) ||| (padded[4 * j + 1]! <<< 16)
      ||| (padded[4 * j + 2]! <<< 8) ||| padded[4 * j + 3]!).toArray
  let nblocks := nwords / 16
  let hf := (List.range nblocks).foldl
    (fun hs i =>
      sha256CompressBlock hs ((List.range 16).map fun j => words[16 * i + j]!))
    sha256Init
  ([hf.a, hf.b, hf.c, hf.d, hf.e, hf.f, hf.g, hf.h].map fun x =>
    [x >>> 24 % 256, x >>> 16 % 256, x >>> 8 % 256, x % 256]).flatten

/-- HMAC-SHA256 (RFC 2104, as implemented by Python's `hmac` module with
a 64-byte block size): key over one block is hashed, the key is
zero-padded, and the digest is `H((K ⊕ opad) ‖ H((K ⊕ ipad) ‖ msg))`. -/
def hmacSha256 (key msg : List Nat) : List Nat :=
  let k0 := if 64 < key.length then sha256 key else key
  let k1 := k0 ++ List.replicate (64 - k0.length) 0
  sha256 ((k1.map fun b => b ^^^ 92)
    ++ sha256 ((k1.map fun b => b ^^^ 54) ++ msg))

/-- One lowercase hexadecimal digit. -/
def hexDigit (n : Nat) : Char :=
  if n < 10 then Char.ofNat (48 + n) else Char.ofNat (87 + n)

/-- Lowercase hex encoding of a byte string (`hexdigest()`). -/
def hexOfBytes (bs : List Nat) : String :=
  String.mk (bs.foldr
    (fun b acc => hexDigit (b / 16 % 16) :: hexDigit (b % 16) :: acc) [])

/-- `WebhookService._generate_signature(payload, secret)`:
`hmac.new(secret.encode(), payload.encode(), hashlib.sha256).hexdigest()`. -/
def generateSignature (payload secret : List Nat) : String :=
  hexOfBytes (hmacSha256 secret payload)

/-- The HTTP headers `_send_webhook` sends (lines 107-116 of
`webhooks.py`): the signature header is added exactly when the webhook has
a secret, with value `sha256=` + the hex HMAC digest. -/
def sendHeaders (w : WebhookRec) (eventName : String)
    (payloadBytes : List Nat) (webhookId : Nat) : List (String × String) :=
  let base := [("Content-Type", "application/json"),
    ("X-Webhook-Event", eventName),
    ("X-Webhook-ID", toString webhookId)]
  match w.secret with
  | some s =>
    base ++ [("X-Webhook-Signature",
      String.append "sha256=" (generateSignature payloadBytes s))]
  | none => base

/-! ### Date range resolution (`core/ingestors/base.py`) and the
request-layer date validation (`schemas/job.py`) -/

/-- A calendar date as parsed by `datetime.strptime(_, "%Y-%m-%d")`. -/
structure Date where
  year : Int
  month : Nat
  day : Nat
deriving DecidableEq

/-- Day number of a civil date (proleptic Gregorian, epoch 1970-01-01),
the standard days-from-civil computation; it gives the ordering and
day-difference arithmetic of Python `date`/`datetime` values. -/
def daysFromCivil (dd : Date) : Int :=
  let y : Int := if dd.month ≤ 2 then dd.year - 1 else dd.year
  let era : Int := (if 0 ≤ y then y else y - 399) / 400
  let yoe : Int := y - era * 400
  let mp : Nat := if 2 < dd.month then dd.month - 3 else dd.month + 9
  let doy : Int := (153 * (Int.ofNat mp) + 2) / 5 + Int.ofNat dd.day - 1
  let doe : Int := yoe * 365 + yoe / 4 - yoe / 100 + doy
  era * 146097 + doe - 719468

/-- A datetime at second granularity: a day number and the seconds elapsed
within that day. -/
structure DateTime where
  days : Int
  secs : Nat
deriving DecidableEq

/-- Strict datetime order (lexicographic). -/
def dtLt (x y : DateTime) : Bool :=
  decide (x.days < y.days) || (decide (x.days = y.days)
    && decide (x.secs < y.secs))

/-- A `start_date` / `end_date` argument: absent (`None`), a string
`strptime` rejects with `ValueError`, or a well-formed `YYYY-MM-DD`
date. -/
inductive DateArg where
  | absent
  | malformed
  | given (d : Date)
deriving DecidableEq

/-- The `DataValidationError` causes `_get_date_range` can raise. -/
inductive RangeErr where
  | invalidFormat
  | startAfterEnd
  | startInFuture
deriving DecidableEq

/-- `BaseIngestor._get_date_range(days, start_date, end_date)` relative to
the current time `now`: an `end_date` is pinned to 23:59:59 of its day and
defaults to `now`; a `start_date` is pinned to 00:00:00 of its day and
defaults to `end - timedelta(days=days)` (which keeps `end`'s time of
day); then `start > end` and `start > now + 1 day` are rejected. -/
def getDateRange (now : DateTime) (days : Nat)
    (startArg endArg : DateArg) : Except RangeErr (DateTime × DateTime) :=
  match endArg with
  | DateArg.malformed => Except.error RangeErr.invalidFormat
  | _ =>
    let endDt : DateTime :=
      match endArg with
      | DateArg.given d => { days := daysFromCivil d, secs := 86399 }
      | _ => now
    match startArg with
    | DateArg.malformed => Except.error RangeErr.invalidFormat
    | _ =>
      let startDt : DateTime :=
        match startArg with
        | DateArg.given d => { days := daysFromCivil d, secs := 0 }
        | _ => { days := endDt.days - Int.ofNat days, secs := endDt.secs }
      if dtLt endDt startDt then Except.error RangeErr.startAfterEnd
      else if dtLt { days := now.days + 1, secs := now.secs } startDt then
        Except.error RangeErr.startInFuture
      else Except.ok (startDt, endDt)

/-- `validate_date_string` (`schemas/job.py` lines 10-42) relative to
`date.today()` given as a day number: an absent value passes; a malformed
string fails; a parsed date must be at most 1 day in the future and at
most 730 days in the past. -/
def validateDateString (today : Int) (v : DateArg) : Bool :=
  match v with
  | DateArg.absent => true
  | DateArg.malformed => false
  | DateArg.given d =>
    let p := daysFromCivil d
    decide (p ≤ today + 1) && decide (today - 730 ≤ p)

/-- The request-layer acceptance of `(days, start_date, end_date)` by
`JobConfig`: the `days` field bound `ge=1, le=365`, `validate_date_string`
on each date, and the `validate_date_range` root validator (start ≤ end
and a range of at most 365 days when both dates are given). -/
def jobConfigAccepts (today : Int) (days : Nat)
    (startArg endArg : DateArg) : Bool :=
  decide (1 ≤ days) && decide (days ≤ 365)
    && validateDateString today startArg
    && validateDateString today endArg
    && (match startArg, endArg with
        | DateArg.given s, DateArg.given e =>
          decide (daysFromCivil s ≤ daysFromCivil e)
            && decide (daysFromCivil e - daysFromCivil s ≤ 365)
        | _, _ => true)

/-- Decidable equality of `Except` results, for evaluating the resolver
on concrete inputs. -/
instance instDecEqExcept {ε α : Type} [DecidableEq ε] [DecidableEq α] :
    DecidableEq (Except ε α) := fun a b =>
  match a, b with
  | Except.ok x, Except.ok y =>
    if h : x = y then isTrue (by rw [h]) else isFalse (by simp [h])
  | Except.error x, Except.error y =>
    if h : x = y then isTrue (by rw [h]) else isFalse (by simp [h])
  | Except.ok _, Except.error _ => isFalse (by simp)
  | Except.error _, Except.ok _ => isFalse (by simp)

/-- The adapter-layer acceptance: `_get_date_range` returns instead of
raising. -/
def adapterAccepts (now : DateTime) (days : Nat)
    (startArg endArg : DateArg) : Bool :=
  match getDateRange now days startArg endArg with
  | Except.ok _ => true
  | Except.error _ => false

/-! ### GA4 ingestor result validation
(`core/ingestors/google_analytics.py` lines 125-142 and
`BaseIngestor._validate_dataframe`) -/

/-- One row of the GA4 report response as collected into the row dicts. -/
structure GA4Row where
  transactionId : String
  date : String
  browser : String
  device : String
  revenue : Int
deriving DecidableEq

/-- `GA4Ingestor.REQUIRED_COLUMNS`. -/
def ga4RequiredColumns : List String := ["clean_id", "value", "date"]

/-- The columns of `pd.DataFrame(data)`: a DataFrame built from an empty
list of row dicts has no columns at all, otherwise the keys of the row
dicts in insertion order. -/
def frameColumns (rows : List GA4Row) : List String :=
  if rows.isEmpty then []
  else ["clean_id", "date", "browser", "device", "value"]

/-- `_validate_dataframe`: the required columns absent from the frame. -/
def missingColumns (cols required : List String) : List String :=
  required.filter fun c => ¬ cols.contains c

/-- The validation tail of `GA4Ingestor.fetch_data`: build the DataFrame
from the response rows and check `REQUIRED_COLUMNS`, raising
`DataValidationError` when any are missing. -/
def ga4ValidateRows (rows : List GA4Row) : Except FetchErr (List GA4Row) :=
  let missing := missingColumns (frameColumns rows) ga4RequiredColumns
  if missing.isEmpty then Except.ok rows
  else Except.error (FetchErr.dataValidation "Missing required columns")

/-- Environment whose adapter fetch raises the same `DataValidationError`
at every attempt — what the orchestrator sees when the GA4 window has
zero rows. -/
def envDataValidation (msg : String) : Env :=
  { hasGA4 := true
    hasBackend := true
    fetch := fun _ => FetchOutcome.err (FetchErr.dataValidation msg) }

/-- Environment for a client missing a backend connector. -/
def envMissingBackend : Env :=
  { hasGA4 := true
    hasBackend := false
    fetch := fun _ => FetchOutcome.ok [] [] }

/-- An ACTIVE webhook with no secret, empty event filter and the given
failure count (concrete test inputs). -/
def wActive (fc : Nat) : WebhookRec :=
  { secret := none, events := [], status := WebhookStatus.active,
    failureCount := fc }

/-- A FAILED webhook subscribed to `job.failed` (concrete test input). -/
def wFailedEx : WebhookRec :=
  { secret := none, events := ["job.failed"],
    status := WebhookStatus.failed, failureCount := 10 }

/-- Bool form of the job-write invariant of C5: every committed row has
`retry_count ≤ max_retries`. -/
def commitsRespectBound (t : List Ev) : Bool :=
  (commitsOf t).all fun j => decide (j.retryCount ≤ j.maxRetries)

/-! ## Sanity checks for the hash development (FIPS 180-4 / RFC 2104
test vectors), evaluated inside the kernel. -/

set_option maxRecDepth 400000

/-- SHA-256 of the empty string is the well-known
`e3b0c442...7852b855` digest. -/
theorem sha256_empty_vector :
    hexOfBytes (sha256 []) =
      "e3b0c44298fc1c149afbf4c8996fb92427ae41e4649b934ca495991b7852b855" := by
  decide

/-- SHA-256 of `"abc"`. -/
theorem sha256_abc_vector :
    hexOfBytes (sha256 [97, 98, 99]) =
      "ba7816bf8f01cfea414140de5dae2223b00361a396177a9cb410ff61f20015ad" := by
  decide

/-- HMAC-SHA256 with key `"key"` over
`"The quick brown fox jumps over the lazy dog"`. -/
theorem hmacSha256_fox_vector :
    hexOfBytes (hmacSha256 [107, 101, 121]
      [84, 104, 101, 32, 113, 117, 105, 99, 107, 32, 98, 114, 111, 119,
       110, 32, 102, 111, 120, 32, 106, 117, 109, 112, 115, 32, 111, 118,
       101, 114, 32, 116, 104, 101, 32, 108, 97, 122, 121, 32, 100, 111,
       103]) =
      "f7bc83f430538424b13298e6aa6fb143ef4d59a14946175997479dbc2d1a3cd8" := by
  decide

/-! ## Orchestrator trace lemmas -/

/-- Every attempt of the chain sends exactly one `job.started` notice and
commits the job row exactly once, so the started-notice count of a trace
equals its commit count. -/
theorem startedCount_eq_commitCount (fuel : Nat) (env : Env) (job : JobRec)
    (attempt : Nat) :
    startedCount (execGo fuel env job attempt).1 =
      (commitsOf (execGo fuel env job attempt).1).length := by
  induction fuel generalizing job attempt with
  | zero => simp [execGo, startedCount, commitsOf]
  | succ fuel ih =>
    cases hconn : env.hasGA4 && env.hasBackend with
    | false => simp [execGo, hconn, startedCount, commitsOf]
    | true =>
      cases hf : env.fetch attempt with
      | ok ga4 backend => simp [execGo, hconn, hf, startedCount, commitsOf]
      | err e =>
        cases e with
        | configuration m =>
          simp [execGo, hconn, hf, startedCount, commitsOf]
        | dataValidation m =>
          simp [execGo, hconn, hf, startedCount, commitsOf]
        | api src code m =>
          cases hr : retryableApi code && decide (attempt < job.maxRetries) with
          | false => simp [execGo, hconn, hf, hr, startedCount, commitsOf]
          | true =>
            simp only [execGo, hconn, hf, hr, startedCount, commitsOf,
              List.countP_cons, List.filterMap_cons]
            simpa [startedCount, commitsOf] using ih _ (attempt + 1)
        | unexpected m =>
          cases hr : decide (attempt < job.maxRetries) with
          | false => simp [execGo, hconn, hf, hr, startedCount, commitsOf]
          | true =>
            simp only [execGo, hconn, hf, hr, startedCount, commitsOf,
              List.countP_cons, List.filterMap_cons]
            simpa [startedCount, commitsOf] using ih _ (attempt + 1)

/-- When both connectors resolve, any chain that ends in a FAILED job row
has sent the `job.failed` webhook notification and the failure email. -/
theorem failed_final_notifies (fuel : Nat) (env : Env) (job : JobRec)
    (attempt : Nat)
    (hconn : (env.hasGA4 && env.hasBackend) = true)
    (hstat : job.status ≠ JobStatus.failed)
    (hfail : (execGo fuel env job attempt).2.status = JobStatus.failed) :
    Ev.failedNotice ∈ (execGo fuel env job attempt).1 ∧
      Ev.emailNotice false ∈ (execGo fuel env job attempt).1 := by
  obtain ⟨h1, h2⟩ : env.hasGA4 = true ∧ env.hasBackend = true := by
    simpa using hconn
  induction fuel generalizing job attempt with
  | zero => simp [execGo] at hfail; exact absurd hfail hstat
  | succ fuel ih =>
    cases hf : env.fetch attempt with
    | ok ga4 backend => simp [execGo, h1, h2, hf] at hfail
    | err e =>
      cases e with
      | configuration m => simp [execGo, h1, h2, hf]
      | dataValidation m => simp [execGo, h1, h2, hf]
      | api src code m =>
        cases hr : retryableApi code && decide (attempt < job.maxRetries) with
        | false => simp [execGo, h1, h2, hf, hr]
        | true =>
          have hfail2 : (execGo fuel env { job with
              retryCount := attempt
              status := JobStatus.retrying
              log := some (LogEntry.attemptRetryableApi attempt m) }
              (attempt + 1)).2.status = JobStatus.failed := by
            simpa [execGo, h1, h2, hf, hr] using hfail
          have := ih { job with
              retryCount := attempt
              status := JobStatus.retrying
              log := some (LogEntry.attemptRetryableApi attempt m) }
            (attempt + 1) (by simp) hfail2
          simp [execGo, h1, h2, hf, hr, this.1, this.2]
      | unexpected m =>
        cases hr : decide (attempt < job.maxRetries) with
        | false => simp [execGo, h1, h2, hf, hr]
        | true =>
          have hfail2 : (execGo fuel env { job with
              retryCount := attempt
              log := some (LogEntry.attemptUnexpected attempt m)
              status := JobStatus.retrying }
              (attempt + 1)).2.status = JobStatus.failed := by
            simpa [execGo, h1, h2, hf, hr] using hfail
          have := ih { job with
              retryCount := attempt
              log := some (LogEntry.attemptUnexpected attempt m)
              status := JobStatus.retrying }
            (attempt + 1) (by simp) hfail2
          simp [execGo, h1, h2, hf, hr, this.1, this.2]

/-- Retry-count bound: from an attempt number at most `max_retries`, with
a starting row already satisfying the bound, every committed row has
`retry_count ≤ max_retries`. -/
theorem commits_bound (fuel : Nat) (env : Env) (job : JobRec)
    (attempt : Nat)
    (hatt : attempt ≤ job.maxRetries)
    (hrc : job.retryCount ≤ job.maxRetries) :
    commitsRespectBound (execGo fuel env job attempt).1 = true := by
  induction fuel generalizing job attempt with
  | zero => simp [execGo, commitsRespectBound, commitsOf]
  | succ fuel ih =>
    cases hconn : env.hasGA4 && env.hasBackend with
    | false =>
      simp [execGo, hconn, commitsRespectBound, commitsOf, hrc]
    | true =>
      cases hf : env.fetch attempt with
      | ok ga4 backend =>
        simp [execGo, hconn, hf, commitsRespectBound, commitsOf, hrc]
      | err e =>
        cases e with
        | configuration m =>
          simp [execGo, hconn, hf, commitsRespectBound, commitsOf, hrc]
        | dataValidation m =>
          simp [execGo, hconn, hf, commitsRespectBound, commitsOf, hrc]
        | api src code m =>
          cases hr : retryableApi code && decide (attempt < job.maxRetries) with
          | false =>
            simp [execGo, hconn, hf, hr, commitsRespectBound, commitsOf, hatt]
          | true =>
            have hlt : retryableApi code = true ∧ attempt < job.maxRetries := by
              simpa using hr
            have hlt2 := hlt.2
            have := ih { job with
                retryCount := attempt
                status := JobStatus.retrying
                log := some (LogEntry.attemptRetryableApi attempt m) }
              (attempt + 1)
              (by show attempt + 1 ≤ job.maxRetries; omega)
              (by show attempt ≤ job.maxRetries; omega)
            simp [execGo, hconn, hf, hr, commitsRespectBound, commitsOf,
              List.filterMap_cons, hatt] at this ⊢
            exact this
        | unexpected m =>
          cases hr : decide (attempt < job.maxRetries) with
          | false =>
            simp [execGo, hconn, hf, hr, commitsRespectBound, commitsOf, hatt]
          | true =>
            have hlt : attempt < job.maxRetries := by simpa using hr
            have := ih { job with
                retryCount := attempt
                log := some (LogEntry.attemptUnexpected attempt m)
                status := JobStatus.retrying }
              (attempt + 1)
              (by show attempt + 1 ≤ job.maxRetries; omega)
              (by show attempt ≤ job.maxRetries; omega)
            simp [execGo, hconn, hf, hr, commitsRespectBound, commitsOf,
              List.filterMap_cons, hatt] at this ⊢
            exact this

/-- In an environment whose fetch always raises the same `APIError`, a
backoff sleep can occur only when that error's status code is retryable. -/
theorem sleep_only_retryable (fuel : Nat) (src : String) (code : Option Nat)
    (job : JobRec) (attempt s : Nat)
    (hmem : Ev.sleep s ∈ (execGo fuel (envApi src code) job attempt).1) :
    retryableApi code = true := by
  induction fuel generalizing job attempt with
  | zero => simp [execGo] at hmem
  | succ fuel ih =>
    cases hr : retryableApi code && decide (attempt < job.maxRetries) with
    | false => simp [execGo, envApi, hr] at hmem
    | true =>
      have hrr : retryableApi code = true ∧ attempt < job.maxRetries := by
        simpa using hr
      exact hrr.1

/-! ## Claim theorems -/

/-- Claim C1, counterexample: with `max_retries = 3` and an APIError 503
on every attempt, the run does NOT match the claimed shape — three
attempts with backoff delays `2, 4, 8` between them — because only two
sleeps (of 2 and 4 seconds) separate the three attempts: the third
attempt fails terminally without a further backoff. -/
theorem c1_claimed_backoffs_false :
    ¬ (startedCount
        (executeReconciliation (envApi "ga4" (some 503)) (freshJob 3) 1).1 = 3
      ∧ sleepsOf
        (executeReconciliation (envApi "ga4" (some 503)) (freshJob 3) 1).1 =
          [2, 4, 8]
      ∧ (executeReconciliation (envApi "ga4" (some 503))
          (freshJob 3) 1).2.status = JobStatus.failed
      ∧ (executeReconciliation (envApi "ga4" (some 503))
          (freshJob 3) 1).2.retryCount = 3) := by
  decide

/-- Claim C1, amended: with `max_retries = 3` and an APIError 503 on
every attempt, the orchestrator performs exactly 3 attempts, sleeps
backoff delays of 2 and 4 seconds between them (two gaps for three
attempts, `2^1` and `2^2`), and leaves the job FAILED with
`retry_count = 3`. -/
theorem c1_retry_arithmetic :
    startedCount
      (executeReconciliation (envApi "ga4" (some 503)) (freshJob 3) 1).1 = 3
    ∧ sleepsOf
      (executeReconciliation (envApi "ga4" (some 503)) (freshJob 3) 1).1 =
        [2, 4]
    ∧ (executeReconciliation (envApi "ga4" (some 503))
        (freshJob 3) 1).2.status = JobStatus.failed
    ∧ (executeReconciliation (envApi "ga4" (some 503))
        (freshJob 3) 1).2.retryCount = 3 := by
  decide

/-- Claim C3, counterexample: in the chain of a job with
`max_retries = 3` and a retryable APIError on every attempt, `job.started`
is emitted three times — once per attempt — not once. -/
theorem c3_started_not_once :
    startedCount
      (executeReconciliation (envApi "ga4" (some 503)) (freshJob 3) 1).1 = 3
    ∧ ¬ (startedCount
        (executeReconciliation (envApi "ga4" (some 503)) (freshJob 3) 1).1
          = 1) := by
  decide

/-- Claim C3, amended: `notify_job_started` runs unconditionally at the
top of every invocation of `execute_reconciliation`, so the `job.started`
notification is emitted once per attempt — on retries as well — exactly
as many times as the chain commits a job row (each attempt commits
exactly once). -/
theorem c3_started_per_attempt (fuel : Nat) (env : Env) (job : JobRec)
    (attempt : Nat) :
    startedCount (execGo fuel env job attempt).1 =
      (commitsOf (execGo fuel env job attempt).1).length :=
  startedCount_eq_commitCount fuel env job attempt

/-- Claim C4, counterexample: a client with a GA4 connector but no
backend connector fails the job — the missing-connector path writes
FAILED — yet the trace contains no `job.failed` webhook notification and
no failure email at all. -/
theorem c4_misconfig_no_notifications :
    (executeReconciliation envMissingBackend (freshJob 3) 1).2.status =
      JobStatus.failed
    ∧ failedNoticeCount
        (executeReconciliation envMissingBackend (freshJob 3) 1).1 = 0
    ∧ ¬ (Ev.emailNotice false ∈
        (executeReconciliation envMissingBackend (freshJob 3) 1).1) := by
  decide

/-- Claim C4, amended: when both connectors resolve, every attempt chain
that ends with FAILED fires the `job.failed` webhook notification and the
failure email before returning; but the structural-misconfiguration path
(missing GA4 or backend connector) writes FAILED and returns with no
notification on either channel. -/
theorem c4_failed_notifies :
    (∀ (env : Env) (job : JobRec) (attempt fuel : Nat),
      (env.hasGA4 && env.hasBackend) = true →
      job.status ≠ JobStatus.failed →
      (execGo fuel env job attempt).2.status = JobStatus.failed →
      Ev.failedNotice ∈ (execGo fuel env job attempt).1 ∧
        Ev.emailNotice false ∈ (execGo fuel env job attempt).1) ∧
    (∀ (env : Env) (job : JobRec) (attempt : Nat),
      (env.hasGA4 && env.hasBackend) = false →
      (executeReconciliation env job attempt).2.status = JobStatus.failed ∧
        ¬ (Ev.failedNotice ∈ (executeReconciliation env job attempt).1) ∧
        ¬ (Ev.emailNotice false ∈
            (executeReconciliation env job attempt).1)) := by
  constructor
  · intro env job attempt fuel hconn hstat hfail
    exact failed_final_notifies fuel env job attempt hconn hstat hfail
  · intro env job attempt hconn
    have h12 : env.hasGA4 = false ∨ env.hasBackend = false := by
      cases hg : env.hasGA4 with
      | false => exact Or.inl rfl
      | true =>
        cases hb : env.hasBackend with
        | false => exact Or.inr rfl
        | true => rw [hg, hb] at hconn; simp at hconn
    cases h12 with
    | inl h => simp [executeReconciliation, execGo, h]
    | inr h => simp [executeReconciliation, execGo, h]

/-- Claim C4, witness: the amended theorem applied to a client whose
adapter raises a non-retryable 404 APIError — the FAILED terminal write is
followed by both `job.failed` notifications. -/
theorem c4_failed_notifies_witness :
    Ev.failedNotice ∈ (execGo 4 (envApi "ga4" (some 404)) (freshJob 3) 1).1 ∧
      Ev.emailNotice false ∈
        (execGo 4 (envApi "ga4" (some 404)) (freshJob 3) 1).1 :=
  c4_failed_notifies.1 (envApi "ga4" (some 404)) (freshJob 3) 1 4
    (by decide) (by decide) (by decide)

/-- Claim C5, counterexample: `max_retries = 0` is admissible
(`ge=0, le=5`), yet an APIError on attempt 1 makes the orchestrator write
FAILED with `retry_count = 1 > 0 = max_retries`, violating the claimed
invariant. -/
theorem c5_zero_retries_violation :
    maxRetriesAdmissible 0 = true
    ∧ (executeReconciliation (envApi "ga4" (some 503))
        (freshJob 0) 1).2.retryCount = 1
    ∧ commitsRespectBound
        (executeReconciliation (envApi "ga4" (some 503))
          (freshJob 0) 1).1 = false := by
  decide

/-- Claim C5, amended: for every admissible `max_retries` that is at
least 1, every job row the attempt chain commits satisfies
`retry_count ≤ max_retries`, provided the chain starts at an attempt
number between 1 and `max_retries` (as both entry points do) on a row
already satisfying the bound; for `max_retries = 0` the invariant fails
(see the counterexample). -/
theorem c5_retry_bound (env : Env) (job : JobRec) (attempt : Nat)
    (hadm : maxRetriesAdmissible job.maxRetries = true)
    (hpos : 1 ≤ job.maxRetries)
    (hrc : job.retryCount ≤ job.maxRetries)
    (hatt1 : 1 ≤ attempt) (hatt2 : attempt ≤ job.maxRetries) :
    commitsRespectBound (executeReconciliation env job attempt).1 = true :=
  commits_bound (job.maxRetries + 1) env job attempt hatt2 hrc

/-- Claim C5, witness: the amended bound at `max_retries = 3` with a
persistent 503. -/
theorem c5_retry_bound_witness :
    commitsRespectBound
      (executeReconciliation (envApi "ga4" (some 503))
        (freshJob 3) 1).1 = true :=
  c5_retry_bound (envApi "ga4" (some 503)) (freshJob 3) 1
    (by decide) (by decide) (by decide) (by decide) (by decide)

/-- Claim C7: an APIError with status 404 (a 4xx other than 429) causes
exactly 1 attempt — one `job.started`, no backoff sleep — and an
immediate FAILED, for every `max_retries`; and in an environment whose
fetch always raises an APIError with a fixed status code, a backoff sleep
can occur only when that code is retryable, i.e. absent, ≥ 500, or
equal to 429 (`retryableApi`). -/
theorem c7_non_retryable_short_circuit :
    (∀ mr : Nat,
      startedCount
        (executeReconciliation (envApi "ga4" (some 404)) (freshJob mr) 1).1 = 1
      ∧ (executeReconciliation (envApi "ga4" (some 404))
          (freshJob mr) 1).2.status = JobStatus.failed
      ∧ sleepsOf
          (executeReconciliation (envApi "ga4" (some 404))
            (freshJob mr) 1).1 = []) ∧
    (∀ (src : String) (code : Option Nat) (job : JobRec)
        (attempt s fuel : Nat),
      Ev.sleep s ∈ (execGo fuel (envApi src code) job attempt).1 →
      retryableApi code = true) := by
  constructor
  · intro mr
    simp [executeReconciliation, execGo, envApi, retryableApi, freshJob,
      startedCount, sleepsOf]
  · intro src code job attempt s fuel hmem
    exact sleep_only_retryable fuel src code job attempt s hmem

/-- Claim C7, witness: the 404 short-circuit at `max_retries = 5`, and
the retryability conclusion for the sleep observed in a 503 chain. -/
theorem c7_short_circuit_witness :
    (startedCount
      (executeReconciliation (envApi "ga4" (some 404)) (freshJob 5) 1).1 = 1
    ∧ (executeReconciliation (envApi "ga4" (some 404))
        (freshJob 5) 1).2.status = JobStatus.failed
    ∧ sleepsOf
        (executeReconciliation (envApi "ga4" (some 404))
          (freshJob 5) 1).1 = []) ∧
    retryableApi (some 503) = true :=
  ⟨c7_non_retryable_short_circuit.1 5,
    c7_non_retryable_short_circuit.2 "ga4" (some 503) (freshJob 3) 1 2 4
      (by decide)⟩

/-- Claim C10: a GA4 response with zero rows yields a DataFrame with no
columns, so the required-column check fails and `fetch_data` raises
`DataValidationError` instead of returning an empty table; and since
`DataValidationError` is non-retryable, the orchestrator performs one
attempt with no backoff, writes FAILED and fires the failure
notifications. -/
theorem c10_zero_rows_fail :
    frameColumns [] = []
    ∧ ga4ValidateRows [] =
        Except.error (FetchErr.dataValidation "Missing required columns")
    ∧ (∀ (m : String) (mr : Nat),
        startedCount
          (executeReconciliation (envDataValidation m) (freshJob mr) 1).1 = 1
        ∧ sleepsOf
            (executeReconciliation (envDataValidation m)
              (freshJob mr) 1).1 = []
        ∧ (executeReconciliation (envDataValidation m)
            (freshJob mr) 1).2.status = JobStatus.failed
        ∧ Ev.failedNotice ∈
            (executeReconciliation (envDataValidation m)
              (freshJob mr) 1).1) := by
  refine ⟨by decide, by rfl, ?_⟩
  intro m mr
  simp [executeReconciliation, execGo, envDataValidation, freshJob,
    startedCount, sleepsOf]

/-- Claim C2, counterexample: an ACTIVE webhook with `failure_count = 9`
that receives one more non-2xx HTTP response reaches
`failure_count = 10`, yet its status stays ACTIVE — the HTTP-response
failure path of `_send_webhook` increments the counter without the
circuit-breaker check, so reaching 10 by non-2xx responses does not force
FAILED. -/
theorem c2_http_failures_no_break :
    (applyDelivery (wActive 9) (DeliveryOutcome.http 500)).failureCount = 10
    ∧ (applyDelivery (wActive 9) (DeliveryOutcome.http 500)).status =
        WebhookStatus.active
    ∧ ¬ ((applyDelivery (wActive 9) (DeliveryOutcome.http 500)).status =
        WebhookStatus.failed) := by
  decide

/-- Claim C2, amended: the circuit breaker fires only on the
timeout/network-error delivery path — there, once the incremented
`failure_count` reaches 10 the status is forced to FAILED; a non-2xx HTTP
response merely increments `failure_count` and never changes the status;
a webhook whose status is not ACTIVE (in particular FAILED) receives no
delivery attempts; and manual reactivation resets `failure_count`
to 0. -/
theorem c2_circuit_breaker :
    (∀ w : WebhookRec, 9 ≤ w.failureCount →
      (applyDelivery w DeliveryOutcome.timeout).status =
          WebhookStatus.failed
        ∧ ∀ m : String,
            (applyDelivery w (DeliveryOutcome.netErr m)).status =
              WebhookStatus.failed) ∧
    (∀ (w : WebhookRec) (code : Nat), ¬ (200 ≤ code ∧ code < 300) →
      (applyDelivery w (DeliveryOutcome.http code)).failureCount =
          w.failureCount + 1
        ∧ (applyDelivery w (DeliveryOutcome.http code)).status = w.status) ∧
    (∀ (ws : List WebhookRec) (ev : String) (w : WebhookRec),
      w ∈ notifyTargets ws ev → w.status = WebhookStatus.active) ∧
    (∀ w : WebhookRec,
      (updateWebhookStatus w WebhookStatus.active).failureCount = 0
        ∧ (updateWebhookStatus w WebhookStatus.active).status =
            WebhookStatus.active) := by
  refine ⟨?_, ?_, ?_, ?_⟩
  · intro w hw
    constructor
    · simp only [applyDelivery]
      rw [if_pos (by omega)]
    · intro m
      simp only [applyDelivery]
      rw [if_pos (by omega)]
  · intro w code hcode
    simp [applyDelivery, hcode]
  · intro ws ev w hw
    have hmem : w ∈ ws.filter fun x => x.status == WebhookStatus.active :=
      (List.mem_filter.mp hw).1
    have := (List.mem_filter.mp hmem).2
    simpa using this
  · intro w
    simp [updateWebhookStatus]

/-- Claim C2, witness: the breaker at a timeout that brings the count to
10, the non-breaking non-2xx path, an ACTIVE target of a delivery, and a
reactivation reset. -/
theorem c2_circuit_breaker_witness :
    ((applyDelivery (wActive 9) DeliveryOutcome.timeout).status =
        WebhookStatus.failed
      ∧ ∀ m : String,
          (applyDelivery (wActive 9) (DeliveryOutcome.netErr m)).status =
            WebhookStatus.failed) ∧
    ((applyDelivery (wActive 4) (DeliveryOutcome.http 500)).failureCount = 5
      ∧ (applyDelivery (wActive 4) (DeliveryOutcome.http 500)).status =
          WebhookStatus.active) ∧
    (wActive 0).status = WebhookStatus.active ∧
    ((updateWebhookStatus wFailedEx WebhookStatus.active).failureCount = 0
      ∧ (updateWebhookStatus wFailedEx WebhookStatus.active).status =
          WebhookStatus.active) :=
  ⟨c2_circuit_breaker.1 (wActive 9) (by decide),
    c2_circuit_breaker.2.1 (wActive 4) 500 (by decide),
    c2_circuit_breaker.2.2.1 [wActive 0] "job.failed" (wActive 0)
      (by decide),
    c2_circuit_breaker.2.2.2 wFailedEx⟩

/-- Claim C9: whenever a webhook has a configured secret, the dispatcher
sends the `X-Webhook-Signature` header with value exactly `sha256=`
followed by the lowercase hex encoding of HMAC-SHA256 keyed by the secret
over the serialized payload. -/
theorem c9_signature_header (w : WebhookRec) (s payload : List Nat)
    (eventName : String) (webhookId : Nat)
    (h : w.secret = some s) :
    (sendHeaders w eventName payload webhookId).lookup
        "X-Webhook-Signature" =
      some (String.append "sha256=" (hexOfBytes (hmacSha256 s payload))) := by
  cases w with
  | mk secret events status failureCount =>
    cases h
    rfl

/-- Claim C9, witness: the signature header for a concrete secret and
payload. -/
theorem c9_signature_header_witness :
    (sendHeaders
        { secret := some [115, 51, 99, 114, 51, 116], events := [],
          status := WebhookStatus.active, failureCount := 0 }
        "job.completed" [123, 125] 7).lookup "X-Webhook-Signature" =
      some (String.append "sha256="
        (hexOfBytes (hmacSha256 [115, 51, 99, 114, 51, 116] [123, 125]))) :=
  c9_signature_header _ [115, 51, 99, 114, 51, 116] [123, 125]
    "job.completed" 7 rfl

/-- Claim C6, counterexample: `resolve(days=30, start_date=None,
end_date="2024-01-31")` does NOT return `start = 2024-01-01T00:00:00`:
the derived start is `end - timedelta(days=30)`, which keeps the end's
23:59:59 time of day instead of being pinned to the first instant of its
day. -/
theorem c6_derived_start_not_midnight :
    ¬ (getDateRange { days := daysFromCivil ⟨2024, 2, 15⟩, secs := 43200 }
        30 DateArg.absent (DateArg.given ⟨2024, 1, 31⟩) =
      Except.ok ({ days := daysFromCivil ⟨2024, 1, 1⟩, secs := 0 },
        { days := daysFromCivil ⟨2024, 1, 31⟩, secs := 86399 })) := by
  decide

/-- Claim C6, amended: for any current time that keeps the future-start
check inactive, `resolve(days=30, start_date=None,
end_date="2024-01-31")` returns `end = 2024-01-31T23:59:59` (the last
instant of the given day) and `start = 2024-01-01T23:59:59` — the same
calendar day the claim names, but carrying the end's time of day rather
than the first instant of the day. -/
theorem c6_date_boundary (now : DateTime)
    (h : daysFromCivil ⟨2024, 1, 1⟩ ≤ now.days) :
    getDateRange now 30 DateArg.absent (DateArg.given ⟨2024, 1, 31⟩) =
      Except.ok ({ days := daysFromCivil ⟨2024, 1, 1⟩, secs := 86399 },
        { days := daysFromCivil ⟨2024, 1, 31⟩, secs := 86399 }) := by
  obtain ⟨nd, ns⟩ := now
  have e1 : daysFromCivil ⟨2024, 1, 1⟩ = 19723 := by decide
  rw [e1] at h ⊢
  have e31 : daysFromCivil ⟨2024, 1, 31⟩ = 19753 := by decide
  rw [e31]
  simp only [getDateRange, e31]
  norm_num
  have hc1 : dtLt { days := (19753 : Int), secs := 86399 }
      { days := 19723, secs := 86399 } = false := by decide
  rw [hc1]
  have h2 : (19723 : Int) ≤ nd := h
  have hc2 : dtLt { days := nd + 1, secs := ns }
      { days := (19723 : Int), secs := 86399 } = false := by
    simp [dtLt]
    omega
  rw [hc2]
  norm_num

/-- Claim C6, witness: the amended boundary at a concrete mid-February
current time. -/
theorem c6_date_boundary_witness :
    getDateRange { days := 19761, secs := 43200 } 30 DateArg.absent
        (DateArg.given ⟨2024, 1, 31⟩) =
      Except.ok ({ days := daysFromCivil ⟨2024, 1, 1⟩, secs := 86399 },
        { days := daysFromCivil ⟨2024, 1, 31⟩, secs := 86399 }) :=
  c6_date_boundary { days := 19761, secs := 43200 } (by decide)

/-- Claim C8, counterexample: with today = 2024-06-15, the request-layer
schema accepts `start_date = 2024-06-16` (tomorrow, within its 1-day
future buffer) with no `end_date`, but the adapter layer rejects the same
input: there `end = now`, so the pinned start of tomorrow lies after the
end and `_get_date_range` raises — the two layers do not accept the same
set of inputs. -/
theorem c8_layers_disagree :
    jobConfigAccepts (daysFromCivil ⟨2024, 6, 15⟩) 30
        (DateArg.given ⟨2024, 6, 16⟩) DateArg.absent = true
    ∧ adapterAccepts { days := daysFromCivil ⟨2024, 6, 15⟩, secs := 43200 }
        30 (DateArg.given ⟨2024, 6, 16⟩) DateArg.absent = false := by
  decide

/-- Claim C8, amended: the two validation layers accept incomparable
sets: the schema accepts a tomorrow start without end date, which fails
at execution time in the adapter; and the adapter accepts an end date
more than two years in the past, which the schema rejects at submission
time (its 730-day bound and 365-day range cap have no adapter
counterpart). -/
theorem c8_validation_sets_incomparable :
    jobConfigAccepts (daysFromCivil ⟨2024, 6, 15⟩) 30
        (DateArg.given ⟨2024, 6, 16⟩) DateArg.absent = true
    ∧ adapterAccepts { days := daysFromCivil ⟨2024, 6, 15⟩, secs := 43200 }
        30 (DateArg.given ⟨2024, 6, 16⟩) DateArg.absent = false
    ∧ adapterAccepts { days := daysFromCivil ⟨2024, 6, 15⟩, secs := 43200 }
        30 DateArg.absent (DateArg.given ⟨2021, 6, 14⟩) = true
    ∧ jobConfigAccepts (daysFromCivil ⟨2024, 6, 15⟩) 30
        DateArg.absent (DateArg.given ⟨2021, 6, 14⟩) = false := by
  decide

end Recon
